import Mathlib

/-!
Shallow embedding of `src/funko_dash.py` (Funko Pop dashboard).

The pipeline has two parts:
* `loadData` embeds `load_data`: rename columns, check that the canonical
  price column exists, coerce dates / prices / volumes (malformed values
  become `none`, mirroring `errors='coerce'`), derive release year and
  market capitalization, then apply the baseline row filter
  `df[df["Sales Volume"] > 1]` (note: in pandas `NaN > 1` is `False`, so
  rows with null volume are dropped by this filter as well).
* `filteredDf` / `topMarketCap` / `topSalesVolume` / `topPrice` embed the
  module-level filter and ranking logic, and `moduleFlow` embeds the
  module-level diagnostics / slider control flow.

Numeric cells are modelled as rationals (`ℚ`); pandas float64 arithmetic is
idealized as exact rational arithmetic.  The pandas descending sort
(`sort_values(ascending=False)`, NaN placed last) is modelled by `sortDesc`,
a deterministic insertion sort.  The program uses the default
`kind='quicksort'`, whose order among tied keys is implementation-defined
(pandas documents only `mergesort`/`stable` as stable), so `sortDesc`
agrees with the program on the multiset of rows, on the descending key
order and on NaN placement (`na_position='last'`), but fixes one
particular tie order that the program does not guarantee.  Only
tie-order-insensitive consequences of the sort are asserted of the
program here.
-/

namespace FunkoDash

/-- A calendar date, produced only by `parseDate`, which checks validity. -/
structure Date where
  year : Int
  month : Nat
  day : Nat
deriving DecidableEq, Repr

def isLeapYear (y : Int) : Bool :=
  (y % 4 == 0 && y % 100 != 0) || (y % 400 == 0)

def daysInMonth (y : Int) (m : Nat) : Nat :=
  if m == 2 then (if isLeapYear y then 29 else 28)
  else if m == 4 || m == 6 || m == 9 || m == 11 then 30
  else 31

/-- Numeric value of a list of decimal digit characters. -/
def digitsVal (cs : List Char) : Nat :=
  cs.foldl (fun a c => a * 10 + (c.toNat - 48)) 0

def allDigits (cs : List Char) : Bool :=
  cs.all (·.isDigit)

/-- Split a character list at every `'-'` (the separator of the accepted
`%Y-%m-%d` date format); agrees with Python's `split('-')`. -/
def splitOnDash : List Char → List (List Char)
  | [] => [[]]
  | c :: cs =>
    if c = '-' then [] :: splitOnDash cs
    else
      match splitOnDash cs with
      | [] => [[c]]
      | g :: gs => (c :: g) :: gs

/-- Embeds `pd.to_datetime(s, format='%Y-%m-%d', errors='coerce')` on one
cell: a `YYYY-MM-DD` string denoting a valid calendar date parses, anything
else coerces to `none` (pandas `NaT`). -/
def parseDate (s : String) : Option Date :=
  match splitOnDash s.toList with
  | [ys, ms, ds] =>
    if allDigits ys && ys.length == 4 &&
       allDigits ms && ms.length == 2 &&
       allDigits ds && ds.length == 2 then
      let y : Int := Int.ofNat (digitsVal ys)
      let m := digitsVal ms
      let d := digitsVal ds
      if 1 ≤ m && m ≤ 12 && 1 ≤ d && d ≤ daysInMonth y m then
        some ⟨y, m, d⟩
      else none
    else none
  | _ => none

/-- Decimal-number parser for the digits-and-dot core (no sign): embeds the
numeric coercion done by `pd.to_numeric(..., errors='coerce')` on a string
cell.  Accepts `123`, `123.45`, `.5`, `5.`; everything else is `none`. -/
def parseNumericCore (cs : List Char) : Option ℚ :=
  match cs.span (fun c => c ≠ '.') with
  | (intPart, rest) =>
    match rest with
    | [] =>
      if intPart ≠ [] && allDigits intPart then
        some (digitsVal intPart : ℚ)
      else none
    | _ :: frac =>
      if allDigits intPart && allDigits frac && (intPart ≠ [] || frac ≠ []) then
        some ((digitsVal intPart : ℚ) + (digitsVal frac : ℚ) / (10 : ℚ) ^ frac.length)
      else none

/-- Embeds `pd.to_numeric(s, errors='coerce')` on one string cell. -/
def parseNumeric (s : String) : Option ℚ :=
  match s.toList with
  | '-' :: rest => (parseNumericCore rest).map (fun q => -q)
  | '+' :: rest => parseNumericCore rest
  | cs => parseNumericCore cs

/-- Embeds `.replace('[\$,]', '', regex=True)` followed by `pd.to_numeric`
with `errors='coerce'`: strip every `$` and `,`, then parse. -/
def parsePrice (s : String) : Option ℚ :=
  parseNumeric (String.mk (s.toList.filter (fun c => c ≠ '$' && c ≠ ',')))

/-- One raw CSV row; a field is `none` when the column is absent or the
cell is empty (pandas `NaN`). -/
structure RawRow where
  consoleName : String
  productName : String
  newPrice : Option String
  salesVolume : Option String
  releaseDate : Option String
deriving DecidableEq, Repr

/-- A raw CSV table: its header (column names) and its rows. -/
structure RawTable where
  cols : List String
  rows : List RawRow
deriving DecidableEq, Repr

/-- One normalized record of the processed DataFrame. -/
structure Record where
  category : String
  name : String
  price : Option ℚ
  volume : Option ℚ
  releaseDate : Option Date
  releaseYear : Option Int
  marketCap : Option ℚ
deriving DecidableEq, Repr

/-- The fixed `df.rename(columns=...)` mapping of `load_data`. -/
def renameCol (c : String) : String :=
  if c = "console-name" then "Funko Category"
  else if c = "product-name" then "Figure Name"
  else if c = "new-price" then "Avg. eBay Sell Price"
  else if c = "sales-volume" then "Sales Volume"
  else if c = "release-date" then "Release Date"
  else c

/-- Per-row normalization of `load_data`: coerce release date, price and
volume (malformed values become `none`), derive the release year
(`.dt.year`, null-propagating) and the market capitalization
(`Sales Volume * Avg. eBay Sell Price`, null-propagating as in pandas,
where `NaN * x = NaN`). -/
def processRow (row : RawRow) : Record :=
  let d := row.releaseDate.bind parseDate
  let p := row.newPrice.bind parsePrice
  let v := row.salesVolume.bind parseNumeric
  { category := row.consoleName
    name := row.productName
    price := p
    volume := v
    releaseDate := d
    releaseYear := d.map Date.year
    marketCap :=
      match v, p with
      | some v, some p => some (v * p)
      | _, _ => none }

/-- The boolean mask of the baseline filter `df["Sales Volume"] > 1`:
in pandas, a `NaN` volume compares as `False`, so a record with null
volume does not pass. -/
def volumeGtOne (r : Record) : Bool :=
  match r.volume with
  | some v => decide (1 < v)
  | none => false

/-- Embeds `load_data`: rename the columns, fail with the error string
`"Column renaming failed"` when the canonical price column is absent
after renaming, otherwise normalize every row and keep only the rows
passing the baseline volume filter. -/
def loadData (tbl : RawTable) : Except String (List Record) :=
  if "Avg. eBay Sell Price" ∈ tbl.cols.map renameCol then
    .ok ((tbl.rows.map processRow).filter volumeGtOne)
  else
    .error "Column renaming failed"

/-- The filter parameters supplied by the three sliders. -/
structure FilterParams where
  yearLo : Int
  yearHi : Int
  priceLo : ℚ
  priceHi : ℚ
  volumeLo : ℚ
  volumeHi : ℚ
deriving DecidableEq, Repr

/-- Embeds `Series.between(lo, hi, inclusive='both')` on one cell: a
null cell yields `False`. -/
def betweenOpt {α : Type} [LinearOrder α] (x : Option α) (lo hi : α) : Bool :=
  match x with
  | some v => decide (lo ≤ v ∧ v ≤ hi)
  | none => false

/-- The conjunction of the three `between` masks used to build
`filtered_df`. -/
def passFilter (p : FilterParams) (r : Record) : Bool :=
  betweenOpt r.releaseYear p.yearLo p.yearHi &&
  betweenOpt r.price p.priceLo p.priceHi &&
  betweenOpt r.volume p.volumeLo p.volumeHi

/-- Embeds `filtered_df = df[year_mask & price_mask & volume_mask]`. -/
def filteredDf (df : List Record) (p : FilterParams) : List Record :=
  df.filter (passFilter p)

/-- Descending-with-nulls-last order on metric values: `a` may come before
`b`.  `none` (pandas `NaN`, `na_position='last'`) comes after every
`some`. -/
def metricGE (a b : Option ℚ) : Prop :=
  match a, b with
  | some x, some y => y ≤ x
  | some _, none => True
  | none, some _ => False
  | none, none => True

instance : DecidableRel metricGE := by
  intro a b
  cases a <;> cases b <;> simp [metricGE] <;> infer_instance

/-- The record ordering used by `sort_values(by=metric, ascending=False)`. -/
def recGE (k : Record → Option ℚ) (a b : Record) : Prop :=
  metricGE (k a) (k b)

instance (k : Record → Option ℚ) : DecidableRel (recGE k) := by
  intro a b
  unfold recGE
  infer_instance

instance (k : Record → Option ℚ) : IsTotal Record (recGE k) := by
  constructor
  intro a b
  unfold recGE
  cases h1 : k a <;> cases h2 : k b <;> simp [metricGE]
  exact le_total _ _

instance (k : Record → Option ℚ) : IsTrans Record (recGE k) := by
  constructor
  intro a b c
  unfold recGE
  cases k a <;> cases k b <;> cases k c <;> simp [metricGE]
  exact fun h1 h2 => le_trans h2 h1

/-- Deterministic stand-in for `sort_values(by=metric, ascending=False)`
with the pandas `na_position='last'` default: descending by the metric
with null metric values after all non-null ones.  The program's default
`kind='quicksort'` leaves the relative order of tied keys
implementation-defined, so this model is used only for properties that do
not depend on the tie order (row membership, descending order, null
placement). -/
def sortDesc (k : Record → Option ℚ) (l : List Record) : List Record :=
  l.insertionSort (recGE k)

/-- Embeds `top_market_cap = filtered_df.sort_values(by="Market
Capitalization", ascending=False).head(10)`. -/
def topMarketCap (fdf : List Record) : List Record :=
  (sortDesc Record.marketCap fdf).take 10

/-- Embeds `top_sales_volume = filtered_df.sort_values(by="Sales Volume",
ascending=False).head(10)`. -/
def topSalesVolume (fdf : List Record) : List Record :=
  (sortDesc Record.volume fdf).take 10

/-- Embeds `top_price = filtered_df.sort_values(by="Avg. eBay Sell Price",
ascending=False).head(10)`. -/
def topPrice (fdf : List Record) : List Record :=
  (sortDesc Record.price fdf).take 10

/-- The observable outcome of the module-level diagnostics / slider block
run on the loaded DataFrame: which error and warning messages are shown,
which sliders are rendered, and whether the script reaches the filtered
display.  When a slider's source values are all null the slider is not
rendered and its variable stays unassigned, so the later `filtered_df`
expression raises a `NameError` and the script aborts before filtering:
`proceedsToFilter` is true exactly when all three sliders were rendered. -/
structure FlowReport where
  priceFatalError : Bool
  priceWarning : Bool
  volumeFatalError : Bool
  volumeWarning : Bool
  dateWarning : Bool
  yearSliderOffered : Bool
  priceSliderOffered : Bool
  volumeSliderOffered : Bool
  proceedsToFilter : Bool
deriving DecidableEq, Repr

/-- Embeds the module-level block after `load_data` succeeds: the
`isna().all()` / `isna().any()` checks (on an empty DataFrame `.all()` is
vacuously true, as in pandas), the three `dropna()`-guarded sliders, and
whether execution reaches the filtered views. -/
def moduleFlow (df : List Record) : FlowReport :=
  let priceAllNull := df.all (fun r => r.price.isNone)
  let priceAnyNull := df.any (fun r => r.price.isNone)
  let volAllNull := df.all (fun r => r.volume.isNone)
  let volAnyNull := df.any (fun r => r.volume.isNone)
  let dateAnyNull := df.any (fun r => r.releaseDate.isNone)
  let yearsOk := df.any (fun r => r.releaseYear.isSome)
  let pricesOk := df.any (fun r => r.price.isSome)
  let volsOk := df.any (fun r => r.volume.isSome)
  { priceFatalError := priceAllNull
    priceWarning := !priceAllNull && priceAnyNull
    volumeFatalError := volAllNull
    volumeWarning := !volAllNull && volAnyNull
    dateWarning := dateAnyNull
    yearSliderOffered := yearsOk
    priceSliderOffered := pricesOk
    volumeSliderOffered := volsOk
    proceedsToFilter := yearsOk && pricesOk && volsOk }

/-! ## Helper lemmas about the loader -/

theorem loadData_ok_iff {tbl : RawTable} {df : List Record} :
    loadData tbl = .ok df ↔
      "Avg. eBay Sell Price" ∈ tbl.cols.map renameCol ∧
      df = (tbl.rows.map processRow).filter volumeGtOne := by
  unfold loadData
  by_cases h : "Avg. eBay Sell Price" ∈ tbl.cols.map renameCol <;> simp [h, eq_comm]

theorem mem_loadData {tbl : RawTable} {df : List Record} {r : Record}
    (h : loadData tbl = .ok df) (hr : r ∈ df) :
    ∃ row ∈ tbl.rows, r = processRow row ∧ volumeGtOne r = true := by
  obtain ⟨-, rfl⟩ := loadData_ok_iff.mp h
  rw [List.mem_filter] at hr
  obtain ⟨hmem, hv⟩ := hr
  obtain ⟨row, hrow, rfl⟩ := List.mem_map.mp hmem
  exact ⟨row, hrow, rfl, hv⟩

theorem processRow_marketCap_spec (row : RawRow) :
    (∀ v p, (processRow row).volume = some v → (processRow row).price = some p →
      (processRow row).marketCap = some (v * p)) ∧
    (((processRow row).volume = none ∨ (processRow row).price = none) →
      (processRow row).marketCap = none) := by
  unfold processRow
  cases hv : row.salesVolume.bind parseNumeric <;>
    cases hp : row.newPrice.bind parsePrice <;> simp

theorem processRow_releaseYear (row : RawRow) :
    (processRow row).releaseYear = (processRow row).releaseDate.map Date.year := rfl

/-! ## C4: market capitalization derivation -/

/-- C4: for every loaded record, `market_cap` equals `volume * price`
exactly when both are non-null, and is null whenever either operand is
null.  (`market_cap` is recomputed by `processRow` from the coerced
volume and price fields alone; the raw input carries no such column.) -/
theorem C4_market_cap (tbl : RawTable) (df : List Record)
    (h : loadData tbl = .ok df) (r : Record) (hr : r ∈ df) :
    (∀ v p, r.volume = some v → r.price = some p → r.marketCap = some (v * p)) ∧
    ((r.volume = none ∨ r.price = none) → r.marketCap = none) := by
  obtain ⟨row, -, rfl, -⟩ := mem_loadData h hr
  exact processRow_marketCap_spec row

def witRow : RawRow :=
  { consoleName := "Funko Pop"
    productName := "Batman"
    newPrice := some "$12.50"
    salesVolume := some "4"
    releaseDate := some "2021-03-05" }

def witTbl : RawTable :=
  { cols := ["console-name", "product-name", "new-price", "sales-volume", "release-date"]
    rows := [witRow] }

def witDf : List Record := (witTbl.rows.map processRow).filter volumeGtOne

unseal Rat.add Rat.mul Rat.inv in
theorem C4_market_cap_witness :
    (processRow witRow).volume = some (4 : ℚ) ∧
    (processRow witRow).price = some (25 / 2 : ℚ) ∧
    (processRow witRow).marketCap = some ((4 : ℚ) * (25 / 2 : ℚ)) :=
  ⟨by decide, by decide,
    (C4_market_cap witTbl witDf rfl (processRow witRow)
      (List.mem_filter.mpr
        ⟨List.mem_map_of_mem processRow (List.mem_cons_self witRow []),
          by decide⟩)).1 4 (25 / 2) (by decide) (by decide)⟩

/-! ## C5: release year derivation -/

/-- C5: for every loaded record, `release_year` is non-null iff
`release_date` is non-null, and when non-null it equals the calendar year
of `release_date`. -/
theorem C5_release_year (tbl : RawTable) (df : List Record)
    (h : loadData tbl = .ok df) (r : Record) (hr : r ∈ df) :
    (r.releaseYear.isSome ↔ r.releaseDate.isSome) ∧
    (∀ d, r.releaseDate = some d → r.releaseYear = some d.year) := by
  obtain ⟨row, -, rfl, -⟩ := mem_loadData h hr
  rw [processRow_releaseYear]
  cases hd : (processRow row).releaseDate <;> simp

unseal Rat.add Rat.mul Rat.inv in
theorem C5_release_year_witness :
    ((processRow witRow).releaseYear.isSome ↔ (processRow witRow).releaseDate.isSome) ∧
    (processRow witRow).releaseYear = some (Date.year ⟨2021, 3, 5⟩) :=
  have hmem : processRow witRow ∈ witDf :=
    List.mem_filter.mpr
      ⟨List.mem_map_of_mem processRow (List.mem_cons_self witRow []), by decide⟩
  ⟨(C5_release_year witTbl witDf rfl (processRow witRow) hmem).1,
   (C5_release_year witTbl witDf rfl (processRow witRow) hmem).2
     ⟨2021, 3, 5⟩ (by decide)⟩

/-! ## C6: schema failure on missing price column -/

theorem renameCol_eq_canonical {c : String} :
    renameCol c = "Avg. eBay Sell Price" ↔
      (c = "new-price" ∨ c = "Avg. eBay Sell Price") := by
  unfold renameCol
  split_ifs with h1 h2 h3 h4 h5
  · subst h1; decide
  · subst h2; decide
  · subst h3; simp
  · subst h4; decide
  · subst h5; decide
  · simp [h3]

/-- C6: for every raw input whose header has no `new-price` column (and no
pre-existing canonical price column, so the canonical field is absent
after renaming), `load_data` fails with the schema error and produces no
records. -/
theorem C6_schema_failure (tbl : RawTable)
    (h1 : "new-price" ∉ tbl.cols) (h2 : "Avg. eBay Sell Price" ∉ tbl.cols) :
    loadData tbl = .error "Column renaming failed" ∧
    ∀ df : List Record, loadData tbl ≠ .ok df := by
  have herr : loadData tbl = .error "Column renaming failed" := by
    unfold loadData
    rw [if_neg]
    intro hmem
    obtain ⟨c, hc, hrc⟩ := List.mem_map.mp hmem
    rcases renameCol_eq_canonical.mp hrc with rfl | rfl
    · exact h1 hc
    · exact h2 hc
  exact ⟨herr, fun df hdf => by rw [herr] at hdf; exact Except.noConfusion hdf⟩

def witTblNoPrice : RawTable :=
  { cols := ["console-name", "product-name", "sales-volume", "release-date"]
    rows := [witRow] }

theorem C6_schema_failure_witness :
    loadData witTblNoPrice = .error "Column renaming failed" ∧
    ∀ df : List Record, loadData witTblNoPrice ≠ .ok df :=
  C6_schema_failure witTblNoPrice (by decide) (by decide)

/-! ## C1: baseline exclusion at load time -/

def cexRowBadVolume : RawRow :=
  { consoleName := "Funko Pop"
    productName := "Mystery"
    newPrice := some "10"
    salesVolume := some "abc"
    releaseDate := some "2020-01-01" }

def cexTblBadVolume : RawTable :=
  { cols := ["console-name", "product-name", "new-price", "sales-volume", "release-date"]
    rows := [cexRowBadVolume] }

/-- C1 counterexample: a raw input that parses successfully and yields a
record with null volume (its `sales-volume` cell is non-numeric), yet the
loaded record set is empty — the null-volume record is NOT retained
through the baseline exclusion, because the mask `Sales Volume > 1`
evaluates to false on a null volume. -/
theorem C1_null_volume_dropped_cex :
    (processRow cexRowBadVolume).volume = none ∧
    loadData cexTblBadVolume = .ok [] ∧
    ¬ (∀ df, loadData cexTblBadVolume = .ok df →
        ∀ row ∈ cexTblBadVolume.rows, (processRow row).volume = none →
          processRow row ∈ df) := by
  have hok : loadData cexTblBadVolume = .ok [] := by
    rw [loadData_ok_iff]
    exact ⟨by decide, by decide⟩
  refine ⟨by decide, hok, fun hclaim => ?_⟩
  have := hclaim [] hok cexRowBadVolume (List.mem_cons_self _ _) (by decide)
  exact absurd this (List.not_mem_nil _)

/-- C1 (amended): for every raw input that parses successfully, every
record in the loaded set has non-null volume strictly greater than 1; in
particular no record with non-null `volume <= 1` is present, and records
with null volume are likewise dropped by the baseline filter (the pandas
mask `Sales Volume > 1` is false on null). -/
theorem C1_baseline_exclusion_amended (tbl : RawTable) (df : List Record)
    (h : loadData tbl = .ok df) (r : Record) (hr : r ∈ df) :
    ∃ v, r.volume = some v ∧ 1 < v := by
  obtain ⟨row, -, rfl, hv⟩ := mem_loadData h hr
  revert hv
  unfold volumeGtOne
  cases hvol : (processRow row).volume with
  | none => simp
  | some v => simp

unseal Rat.add Rat.mul Rat.inv in
theorem C1_baseline_exclusion_amended_witness :
    ∃ v, (processRow witRow).volume = some v ∧ 1 < v :=
  C1_baseline_exclusion_amended witTbl witDf rfl (processRow witRow)
    (List.mem_filter.mpr
      ⟨List.mem_map_of_mem processRow (List.mem_cons_self witRow []), by decide⟩)

/-! ## C7: malformed values coerce to null and never abort the load -/

/-- Restates the spec's membership predicate in its own words, for
comparison with the code's `passFilter`: the record passes only when
`release_year` is non-null and within `year_range` inclusive, `price` is
non-null and within `price_range` inclusive, and `volume` is non-null and
within `volume_range` inclusive; a null field excludes the record. -/
def specPassFilter (p : FilterParams) (r : Record) : Bool :=
  (match r.releaseYear with
   | some y => decide (p.yearLo ≤ y) && decide (y ≤ p.yearHi)
   | none => false) &&
  (match r.price with
   | some x => decide (p.priceLo ≤ x) && decide (x ≤ p.priceHi)
   | none => false) &&
  (match r.volume with
   | some v => decide (p.volumeLo ≤ v) && decide (v ≤ p.volumeHi)
   | none => false)

/-- C3: for every record set and filter parameters, the filtered set is
the ordered subsequence (sublist) of the input given exactly by the
spec's membership predicate: all three closed-interval range predicates
hold, with null price, null volume, or null release year excluding the
record. -/
theorem C3_filter_membership (df : List Record) (p : FilterParams) :
    (filteredDf df p).Sublist df ∧
    filteredDf df p = df.filter (specPassFilter p) ∧
    (∀ r ∈ df, (r ∈ filteredDf df p ↔ specPassFilter p r = true)) := by
  refine ⟨List.filter_sublist df, ?_, ?_⟩
  · unfold filteredDf
    apply List.filter_congr
    intro r _
    unfold passFilter specPassFilter betweenOpt
    cases r.releaseYear <;> cases r.price <;> cases r.volume <;> simp
  · intro r hr
    unfold filteredDf
    rw [List.mem_filter]
    constructor
    · intro hmem
      have := hmem.2
      revert this
      unfold passFilter specPassFilter betweenOpt
      cases r.releaseYear <;> cases r.price <;> cases r.volume <;> simp
    · intro hs
      refine ⟨hr, ?_⟩
      revert hs
      unfold passFilter specPassFilter betweenOpt
      cases r.releaseYear <;> cases r.price <;> cases r.volume <;> simp

unseal Rat.add Rat.mul Rat.inv in
theorem C3_filter_membership_witness :
    (filteredDf witDf
      { yearLo := 2020, yearHi := 2022, priceLo := 1, priceHi := 100,
        volumeLo := 2, volumeHi := 50 }).Sublist witDf ∧
    filteredDf witDf
      { yearLo := 2020, yearHi := 2022, priceLo := 1, priceHi := 100,
        volumeLo := 2, volumeHi := 50 } =
      witDf.filter (specPassFilter
        { yearLo := 2020, yearHi := 2022, priceLo := 1, priceHi := 100,
          volumeLo := 2, volumeHi := 50 }) :=
  ⟨(C3_filter_membership witDf _).1, (C3_filter_membership witDf _).2.1⟩

/-! ## C8: monotonicity of the filter under interval widening -/

/-- `p'` is obtained from `p` by widening exactly one of the three range
parameters while holding the other two fixed. -/
def widensOneDim (p p' : FilterParams) : Prop :=
  (p'.yearLo ≤ p.yearLo ∧ p.yearHi ≤ p'.yearHi ∧
   p'.priceLo = p.priceLo ∧ p'.priceHi = p.priceHi ∧
   p'.volumeLo = p.volumeLo ∧ p'.volumeHi = p.volumeHi) ∨
  (p'.yearLo = p.yearLo ∧ p'.yearHi = p.yearHi ∧
   p'.priceLo ≤ p.priceLo ∧ p.priceHi ≤ p'.priceHi ∧
   p'.volumeLo = p.volumeLo ∧ p'.volumeHi = p.volumeHi) ∨
  (p'.yearLo = p.yearLo ∧ p'.yearHi = p.yearHi ∧
   p'.priceLo = p.priceLo ∧ p'.priceHi = p.priceHi ∧
   p'.volumeLo ≤ p.volumeLo ∧ p.volumeHi ≤ p'.volumeHi)

theorem betweenOpt_mono {α : Type} [LinearOrder α] {x : Option α} {lo hi lo' hi' : α}
    (h1 : lo' ≤ lo) (h2 : hi ≤ hi') (h : betweenOpt x lo hi = true) :
    betweenOpt x lo' hi' = true := by
  cases x with
  | none => exact absurd h (by simp [betweenOpt])
  | some v =>
    simp only [betweenOpt, decide_eq_true_eq] at h ⊢
    exact ⟨le_trans h1 h.1, le_trans h.2 h2⟩

theorem passFilter_mono {p p' : FilterParams}
    (hy1 : p'.yearLo ≤ p.yearLo) (hy2 : p.yearHi ≤ p'.yearHi)
    (hp1 : p'.priceLo ≤ p.priceLo) (hp2 : p.priceHi ≤ p'.priceHi)
    (hv1 : p'.volumeLo ≤ p.volumeLo) (hv2 : p.volumeHi ≤ p'.volumeHi)
    (r : Record) (h : passFilter p r = true) : passFilter p' r = true := by
  simp only [passFilter, Bool.and_eq_true] at h ⊢
  exact ⟨⟨betweenOpt_mono hy1 hy2 h.1.1, betweenOpt_mono hp1 hp2 h.1.2⟩,
    betweenOpt_mono hv1 hv2 h.2⟩

/-- C8: widening any one of the three range parameters (holding the other
two fixed) never shrinks the filtered set: the narrow filtered set is a
sublist of the wide one, and every record passing the narrower interval
also passes the wider one. -/
theorem C8_filter_monotonicity (df : List Record) (p p' : FilterParams)
    (h : widensOneDim p p') :
    (filteredDf df p).Sublist (filteredDf df p') ∧
    ∀ r ∈ filteredDf df p, r ∈ filteredDf df p' := by
  have hmono : ∀ r : Record, passFilter p r = true → passFilter p' r = true := by
    rcases h with ⟨hy1, hy2, e1, e2, e3, e4⟩ | ⟨e1, e2, hp1, hp2, e3, e4⟩ |
      ⟨e1, e2, e3, e4, hv1, hv2⟩
    · exact passFilter_mono hy1 hy2 (le_of_eq e1) (ge_of_eq e2)
        (le_of_eq e3) (ge_of_eq e4)
    · exact passFilter_mono (le_of_eq e1) (ge_of_eq e2) hp1 hp2
        (le_of_eq e3) (ge_of_eq e4)
    · exact passFilter_mono (le_of_eq e1) (ge_of_eq e2) (le_of_eq e3)
        (ge_of_eq e4) hv1 hv2
  have hsub : (filteredDf df p).Sublist (filteredDf df p') :=
    List.monotone_filter_right df (fun r hr => hmono r hr)
  exact ⟨hsub, fun r hr => hsub.subset hr⟩

def witParamsNarrow : FilterParams :=
  { yearLo := 2020, yearHi := 2022, priceLo := 1, priceHi := 100,
    volumeLo := 2, volumeHi := 50 }

def witParamsWide : FilterParams :=
  { yearLo := 2019, yearHi := 2023, priceLo := 1, priceHi := 100,
    volumeLo := 2, volumeHi := 50 }

theorem C8_filter_monotonicity_witness :
    (filteredDf witDf witParamsNarrow).Sublist (filteredDf witDf witParamsWide) ∧
    ∀ r ∈ filteredDf witDf witParamsNarrow, r ∈ filteredDf witDf witParamsWide :=
  C8_filter_monotonicity witDf witParamsNarrow witParamsWide
    (Or.inl (by refine ⟨by decide, by decide, rfl, rfl, rfl, rfl⟩))

/-! ## C9: all-null price / volume diagnostics -/

def cexRowNullPrice1 : RawRow :=
  { consoleName := "Funko Pop"
    productName := "Alpha"
    newPrice := some "n/a"
    salesVolume := some "5"
    releaseDate := some "2020-01-01" }

def cexRowNullPrice2 : RawRow :=
  { consoleName := "Funko Pop"
    productName := "Beta"
    newPrice := some "unknown"
    salesVolume := some "9"
    releaseDate := some "2021-06-15" }

def cexTblNullPrice : RawTable :=
  { cols := ["console-name", "product-name", "new-price", "sales-volume", "release-date"]
    rows := [cexRowNullPrice1, cexRowNullPrice2] }

def cexDfNullPrice : List Record :=
  (cexTblNullPrice.rows.map processRow).filter volumeGtOne

/-- C9 counterexample: a loaded record set in which every `price` is null.
The fatal condition is reported (`priceFatalError`), but the claim's
"no range filters are offered" is false: the year and volume sliders ARE
still rendered for this dataset. -/
theorem C9_other_sliders_offered_cex :
    loadData cexTblNullPrice = .ok cexDfNullPrice ∧
    cexDfNullPrice ≠ [] ∧
    (∀ r ∈ cexDfNullPrice, r.price = none) ∧
    (moduleFlow cexDfNullPrice).priceFatalError = true ∧
    (moduleFlow cexDfNullPrice).yearSliderOffered = true ∧
    (moduleFlow cexDfNullPrice).volumeSliderOffered = true := by
  refine ⟨loadData_ok_iff.mpr ⟨by decide, rfl⟩, ?_, ?_, ?_, ?_, ?_⟩ <;> decide

/-- C9 (amended): when all values of `price` (resp. `volume`) in the
loaded record set are null, the condition is reported as a fatal error,
the range slider for that field is not offered, and the script does not
proceed to range filtering and display (the unassigned slider variable
aborts the run before a filtered view is produced) — while the sliders
for the other fields are still rendered; partial nullness yields only a
non-fatal warning, and when every field has at least one non-null value
processing continues to the filtered views. -/
theorem C9_all_null_fatal_amended (df : List Record) :
    ((∀ r ∈ df, r.price = none) →
      (moduleFlow df).priceFatalError = true ∧
      (moduleFlow df).priceSliderOffered = false ∧
      (moduleFlow df).proceedsToFilter = false) ∧
    ((∀ r ∈ df, r.volume = none) →
      (moduleFlow df).volumeFatalError = true ∧
      (moduleFlow df).volumeSliderOffered = false ∧
      (moduleFlow df).proceedsToFilter = false) ∧
    (((∃ r ∈ df, r.price = none) ∧ (∃ r ∈ df, r.price.isSome)) →
      (moduleFlow df).priceFatalError = false ∧
      (moduleFlow df).priceWarning = true ∧
      (moduleFlow df).priceSliderOffered = true) ∧
    (((∃ r ∈ df, r.volume = none) ∧ (∃ r ∈ df, r.volume.isSome)) →
      (moduleFlow df).volumeFatalError = false ∧
      (moduleFlow df).volumeWarning = true ∧
      (moduleFlow df).volumeSliderOffered = true) ∧
    (((∃ r ∈ df, r.releaseYear.isSome) ∧ (∃ r ∈ df, r.price.isSome) ∧
      (∃ r ∈ df, r.volume.isSome)) →
      (moduleFlow df).proceedsToFilter = true) := by
  refine ⟨?_, ?_, ?_, ?_, ?_⟩
  · intro hall
    have h1 : df.all (fun r => r.price.isNone) = true :=
      List.all_eq_true.mpr (fun r hr => by rw [hall r hr]; rfl)
    have h2 : df.any (fun r => r.price.isSome) = false := by
      cases hc : df.any (fun r => r.price.isSome) with
      | false => rfl
      | true =>
        obtain ⟨r, hr, hs⟩ := List.any_eq_true.mp hc
        rw [hall r hr] at hs
        exact Bool.noConfusion hs
    refine ⟨h1, h2, ?_⟩
    show ((df.any (fun r => r.releaseYear.isSome) &&
      df.any (fun r => r.price.isSome)) &&
       df.any (fun r => r.volume.isSome)) = false
    rw [h2]
    simp
  · intro hall
    have h1 : df.all (fun r => r.volume.isNone) = true :=
      List.all_eq_true.mpr (fun r hr => by rw [hall r hr]; rfl)
    have h2 : df.any (fun r => r.volume.isSome) = false := by
      cases hc : df.any (fun r => r.volume.isSome) with
      | false => rfl
      | true =>
        obtain ⟨r, hr, hs⟩ := List.any_eq_true.mp hc
        rw [hall r hr] at hs
        exact Bool.noConfusion hs
    refine ⟨h1, h2, ?_⟩
    show ((df.any (fun r => r.releaseYear.isSome) &&
      df.any (fun r => r.price.isSome)) &&
       df.any (fun r => r.volume.isSome)) = false
    rw [h2]
    simp
  · rintro ⟨⟨r1, hr1, hn1⟩, r2, hr2, hs2⟩
    have hallf : df.all (fun r => r.price.isNone) = false := by
      cases hc : df.all (fun r => r.price.isNone) with
      | false => rfl
      | true =>
        have := List.all_eq_true.mp hc r2 hr2
        rw [Option.isNone_iff_eq_none] at this
        rw [this] at hs2
        exact Bool.noConfusion hs2
    have hanyn : df.any (fun r => r.price.isNone) = true :=
      List.any_eq_true.mpr ⟨r1, hr1, by rw [hn1]; rfl⟩
    have hanys : df.any (fun r => r.price.isSome) = true :=
      List.any_eq_true.mpr ⟨r2, hr2, hs2⟩
    refine ⟨hallf, ?_, hanys⟩
    show (!df.all (fun r => r.price.isNone) &&
      df.any (fun r => r.price.isNone)) = true
    rw [hallf, hanyn]
    rfl
  · rintro ⟨⟨r1, hr1, hn1⟩, r2, hr2, hs2⟩
    have hallf : df.all (fun r => r.volume.isNone) = false := by
      cases hc : df.all (fun r => r.volume.isNone) with
      | false => rfl
      | true =>
        have := List.all_eq_true.mp hc r2 hr2
        rw [Option.isNone_iff_eq_none] at this
        rw [this] at hs2
        exact Bool.noConfusion hs2
    have hanyn : df.any (fun r => r.volume.isNone) = true :=
      List.any_eq_true.mpr ⟨r1, hr1, by rw [hn1]; rfl⟩
    have hanys : df.any (fun r => r.volume.isSome) = true :=
      List.any_eq_true.mpr ⟨r2, hr2, hs2⟩
    refine ⟨hallf, ?_, hanys⟩
    show (!df.all (fun r => r.volume.isNone) &&
      df.any (fun r => r.volume.isNone)) = true
    rw [hallf, hanyn]
    rfl
  · rintro ⟨⟨r1, hr1, h1⟩, ⟨r2, hr2, h2⟩, r3, hr3, h3⟩
    show ((df.any (fun r => r.releaseYear.isSome) &&
      df.any (fun r => r.price.isSome)) &&
       df.any (fun r => r.volume.isSome)) = true
    rw [List.any_eq_true.mpr ⟨r1, hr1, h1⟩,
      List.any_eq_true.mpr ⟨r2, hr2, h2⟩,
      List.any_eq_true.mpr ⟨r3, hr3, h3⟩]
    rfl

theorem C9_all_null_fatal_amended_witness :
    (moduleFlow cexDfNullPrice).priceFatalError = true ∧
    (moduleFlow cexDfNullPrice).priceSliderOffered = false ∧
    (moduleFlow cexDfNullPrice).proceedsToFilter = false :=
  (C9_all_null_fatal_amended cexDfNullPrice).1 (by decide)

/-! ## C10: non-null invariant of the filtered set and the top lists -/

theorem passFilter_isSome {p : FilterParams} {r : Record}
    (h : passFilter p r = true) :
    r.releaseYear.isSome = true ∧ r.price.isSome = true ∧ r.volume.isSome = true := by
  simp only [passFilter, Bool.and_eq_true] at h
  obtain ⟨⟨h1, h2⟩, h3⟩ := h
  refine ⟨?_, ?_, ?_⟩
  · revert h1; unfold betweenOpt; cases r.releaseYear <;> simp
  · revert h2; unfold betweenOpt; cases r.price <;> simp
  · revert h3; unfold betweenOpt; cases r.volume <;> simp

theorem mem_filteredDf_isSome {tbl : RawTable} {df : List Record}
    {p : FilterParams} {r : Record} (h : loadData tbl = .ok df)
    (hr : r ∈ filteredDf df p) :
    r.releaseYear.isSome = true ∧ r.price.isSome = true ∧
    r.volume.isSome = true ∧ r.marketCap.isSome = true := by
  rw [filteredDf, List.mem_filter] at hr
  obtain ⟨hmem, hpass⟩ := hr
  obtain ⟨h1, h2, h3⟩ := passFilter_isSome hpass
  refine ⟨h1, h2, h3, ?_⟩
  obtain ⟨row, -, rfl, -⟩ := mem_loadData h hmem
  obtain ⟨v, hv⟩ := Option.isSome_iff_exists.mp h3
  obtain ⟨x, hx⟩ := Option.isSome_iff_exists.mp h2
  rw [(processRow_marketCap_spec row).1 v x hv hx]
  rfl

/-- C10 (implicit invariant): every record in the filtered set of a loaded
record set has non-null release year, price, volume, and market cap; and
consequently none of the three top-10 lists contains a record whose
ranking metric is null. -/
theorem C10_filtered_non_null_invariant (tbl : RawTable) (df : List Record)
    (h : loadData tbl = .ok df) (p : FilterParams) :
    (∀ r ∈ filteredDf df p,
      r.releaseYear.isSome = true ∧ r.price.isSome = true ∧
      r.volume.isSome = true ∧ r.marketCap.isSome = true) ∧
    (∀ r ∈ topMarketCap (filteredDf df p), r.marketCap.isSome = true) ∧
    (∀ r ∈ topSalesVolume (filteredDf df p), r.volume.isSome = true) ∧
    (∀ r ∈ topPrice (filteredDf df p), r.price.isSome = true) := by
  have hbase : ∀ r ∈ filteredDf df p,
      r.releaseYear.isSome = true ∧ r.price.isSome = true ∧
      r.volume.isSome = true ∧ r.marketCap.isSome = true :=
    fun r hr => mem_filteredDf_isSome h hr
  have htake : ∀ (k : Record → Option ℚ) (r : Record),
      r ∈ (sortDesc k (filteredDf df p)).take 10 → r ∈ filteredDf df p := by
    intro k r hr
    have h1 : r ∈ sortDesc k (filteredDf df p) :=
      List.take_subset 10 _ hr
    exact (List.mem_insertionSort (recGE k)).mp h1
  exact ⟨hbase,
    fun r hr => (hbase r (htake Record.marketCap r hr)).2.2.2,
    fun r hr => (hbase r (htake Record.volume r hr)).2.2.1,
    fun r hr => (hbase r (htake Record.price r hr)).2.1⟩

unseal Rat.add Rat.mul Rat.inv in
theorem C10_filtered_non_null_invariant_witness :
    (∀ r ∈ filteredDf witDf witParamsNarrow,
      r.releaseYear.isSome = true ∧ r.price.isSome = true ∧
      r.volume.isSome = true ∧ r.marketCap.isSome = true) ∧
    (∀ r ∈ topMarketCap (filteredDf witDf witParamsNarrow),
      r.marketCap.isSome = true) ∧
    (∀ r ∈ topSalesVolume (filteredDf witDf witParamsNarrow),
      r.volume.isSome = true) ∧
    (∀ r ∈ topPrice (filteredDf witDf witParamsNarrow),
      r.price.isSome = true) :=
  C10_filtered_non_null_invariant witTbl witDf rfl witParamsNarrow

end FunkoDash
